import Mathlib

/-!
Verification of the leaflet-charme annotation widget.

The source is JavaScript; we give a shallow embedding in Lean:

* JavaScript string concatenation becomes `String.append`; every literal
  chunk of the source is kept verbatim and in source order (brace
  characters inside Lean string literals are written with hex escapes).
* JavaScript numbers reaching the builders are only ever converted to
  their decimal rendering and concatenated, never used arithmetically, so
  coordinates are embedded by their rendered strings.
* The JavaScript coercion of `undefined` to the text "undefined" when
  concatenated is made explicit by `jsStr` over `Option String`.
* The stateful `CharmeAnnotator` object becomes an explicit state record
  plus pure transition functions; asynchronous fetch completions become
  explicit events on a trace, interleaved arbitrarily with user actions.
-/

set_option maxRecDepth 100000

namespace LeafletCharme

/-! ## Character-list string utilities (executable, structural recursion) -/

/-- `prefixOfCh needle hay` is true when `needle` is an initial segment of `hay`. -/
def prefixOfCh : List Char → List Char → Bool
  | [], _ => true
  | _ :: _, [] => false
  | c :: cs, d :: ds => c == d && prefixOfCh cs ds

/-- `containsSub hay needle`: does `needle` occur contiguously inside `hay`? -/
def containsSub : List Char → List Char → Bool
  | [], needle => needle.isEmpty
  | c :: cs, needle => prefixOfCh needle (c :: cs) || containsSub cs needle

/-- Substring test on `String`, via the character lists. -/
def strContains (hay needle : String) : Bool :=
  containsSub hay.data needle.data

/-- Suffix of the list strictly after the first occurrence of `pat`. -/
def afterPat (pat : List Char) : List Char → List Char
  | [] => []
  | c :: rest =>
    if prefixOfCh pat (c :: rest) then (c :: rest).drop pat.length
    else afterPat pat rest

/-- Prefix of the list up to (excluding) the first occurrence of `pat`. -/
def upToPat (pat : List Char) : List Char → List Char
  | [] => []
  | c :: rest =>
    if prefixOfCh pat (c :: rest) then []
    else c :: upToPat pat rest

/-- Split a character list on the two-character separator comma-space. -/
def splitCS : List Char → List (List Char)
  | [] => [[]]
  | [c] => [[c]]
  | c :: d :: rest =>
    if c == ',' && d == ' ' then [] :: splitCS rest
    else
      match splitCS (d :: rest) with
      | [] => [[c]]
      | h :: t => (c :: h) :: t

/-- The coordinate pairs of a WKT polygon text: the comma-separated items
between the opening double parenthesis and the closing one. -/
def wktPairs (w : String) : List String :=
  (splitCS (upToPat [')', ')'] (afterPat ['(', '('] w.data))).map List.asString

/-- A WKT ring text is closed when its first coordinate pair equals its last. -/
def ringClosed (w : String) : Bool :=
  (wktPairs w).head? == (wktPairs w).getLast?

/-! ## Geometry encoder

`_getLocationString` is the encoder of the `CharmeAnnotator` module
(src/unnamed/part_001, lines 381-396); `getLocationString` is the variant
in src/charme.js, lines 174-188.  A drawn layer is a marker, a polyline
(polygons and rectangles are `L.Polyline` subclasses), or something else;
we close that dispatch into a tagged union.  Coordinates are embedded by
their rendered strings (see the file comment).  The JavaScript functions
return `undefined` (no explicit return) on an unrecognized layer, and
indexing an empty coordinate array throws a `TypeError`; the result type
records all three observable outcomes. -/

structure LatLng where
  lng : String
  lat : String
deriving DecidableEq

inductive Shape where
  | marker (ll : LatLng)
  | polyline (latlngs : List LatLng)
  | other
deriving DecidableEq

inductive EncodeResult where
  | text (s : String)
  | jsUndefined
  | jsError
deriving DecidableEq

/-- The loop body shared by both encoders: points appended in reverse
insertion order, each followed by a comma-space. -/
def ringBody (latlngs : List LatLng) : String :=
  latlngs.reverse.foldl (fun acc p => acc ++ p.lng ++ " " ++ p.lat ++ ", ") ""

/-- src/unnamed/part_001 lines 381-396: marker gives POINT, polyline gives
POLYGON with the points in reverse order and the closing pair taken from
`latlngs[latlngs.length - 1]` for both coordinates. -/
def _getLocationString : Shape → EncodeResult
  | .marker ll => .text ("POINT (" ++ ll.lng ++ " " ++ ll.lat ++ ")")
  | .polyline latlngs =>
    match latlngs.getLast? with
    | none => .jsError
    | some pLast =>
      .text ("POLYGON ((" ++ ringBody latlngs ++ pLast.lng ++ " " ++ pLast.lat ++ "))")
  | .other => .jsUndefined

/-- src/charme.js lines 174-188: same shape, but the closing pair is
`_latlngs[_latlngs.length - 1]['lng']` paired with `_latlngs[0]['lat']` —
the longitude of the last input point with the latitude of the first. -/
def getLocationString : Shape → EncodeResult
  | .marker ll => .text ("POINT (" ++ ll.lng ++ " " ++ ll.lat ++ ")")
  | .polyline latlngs =>
    match latlngs.getLast?, latlngs.head? with
    | some pLast, some pFirst =>
      .text ("POLYGON ((" ++ ringBody latlngs ++ pLast.lng ++ " " ++ pFirst.lat ++ "))")
    | _, _ => .jsError
  | .other => .jsUndefined

/-- An encoder outcome that produces no spatial text. -/
def encodeFails : EncodeResult → Bool
  | .text _ => false
  | .jsUndefined => true
  | .jsError => true

example :
    _getLocationString (.polyline [⟨"0", "0"⟩, ⟨"1", "0"⟩, ⟨"1", "1"⟩]) =
      .text "POLYGON ((1 1, 1 0, 0 0, 1 1))" := by decide

example :
    getLocationString (.polyline [⟨"0", "0"⟩, ⟨"1", "0"⟩, ⟨"1", "1"⟩]) =
      .text "POLYGON ((1 1, 1 0, 0 0, 1 0))" := by decide

example : ringClosed "POLYGON ((1 1, 1 0, 0 0, 1 1))" = true := by decide

example : ringClosed "POLYGON ((1 1, 1 0, 0 0, 1 0))" = false := by decide

/-! ## Query builders -/

/-- src/unnamed/part_001 lines 348-376: the SPARQL query for all
annotations of the current dataset/variable.  The literal chunks are the
source's, in source order; the two arguments are concatenated in
verbatim. -/
def _getQuery (datasetUri datasetVariable : String) : String :=
  "PREFIX charme: <http://purl.org/voc/charme#> " ++
    "PREFIX oa: <http://www.w3.org/ns/oa#> " ++
    "PREFIX geo: <http://www.opengis.net/ont/geosparql#> " ++
    "PREFIX geof: <http://www.opengis.net/def/function/geosparql/> " ++
    "PREFIX cnt: <http://www.w3.org/2011/content#> " ++
    "PREFIX foaf: <http://xmlns.com/foaf/0.1/> " ++
    "SELECT ?wkt ?text ?firstname ?surname ?email ?time ?account " ++
    "WHERE \x7b " ++
    "    ?anno oa:hasBody ?body . " ++
    "    ?anno oa:annotatedBy ?authorUri . " ++
    "    ?anno oa:annotatedAt ?time . " ++
    "    ?authorUri foaf:givenName ?firstname . " ++
    "    ?authorUri foaf:familyName ?surname . " ++
    "    ?authorUri foaf:accountName ?account . " ++
    "    ?body cnt:chars ?text . " ++
    "    ?anno oa:hasTarget ?target . " ++
    "    ?target oa:hasSelector ?selector . " ++
    "    ?selector charme:hasSpatialExtent ?sp . " ++
    "    ?sp geo:hasGeometry ?geometry . " ++
    "    ?geometry geo:asWKT ?wkt . " ++
    "    ?datasetUri a charme:dataset . " ++
    "    ?selector charme:hasVariable ?variableUri . " ++
    "    ?variableUri charme:hasInternalName ?variableName . " ++
    "    ?authorUri foaf:mbox ?email . " ++
    "FILTER(?variableName=\"" ++ datasetVariable ++ "\") . " ++
    "FILTER(str(?datasetUri)=\"" ++ datasetUri ++ "\") . " ++ "\x7d "

/-- The fixed head of the dataset query (everything before the first
caller-supplied string), spelled as a single literal. -/
def dsQueryHead : String :=
  "PREFIX charme: <http://purl.org/voc/charme#> PREFIX oa: <http://www.w3.org/ns/oa#> PREFIX geo: <http://www.opengis.net/ont/geosparql#> PREFIX geof: <http://www.opengis.net/def/function/geosparql/> PREFIX cnt: <http://www.w3.org/2011/content#> PREFIX foaf: <http://xmlns.com/foaf/0.1/> SELECT ?wkt ?text ?firstname ?surname ?email ?time ?account WHERE \x7b     ?anno oa:hasBody ?body .     ?anno oa:annotatedBy ?authorUri .     ?anno oa:annotatedAt ?time .     ?authorUri foaf:givenName ?firstname .     ?authorUri foaf:familyName ?surname .     ?authorUri foaf:accountName ?account .     ?body cnt:chars ?text .     ?anno oa:hasTarget ?target .     ?target oa:hasSelector ?selector .     ?selector charme:hasSpatialExtent ?sp .     ?sp geo:hasGeometry ?geometry .     ?geometry geo:asWKT ?wkt .     ?datasetUri a charme:dataset .     ?selector charme:hasVariable ?variableUri .     ?variableUri charme:hasInternalName ?variableName .     ?authorUri foaf:mbox ?email . FILTER(?variableName=\""

example (uri v : String) :
    _getQuery uri v =
      dsQueryHead ++ v ++ "\") . " ++ "FILTER(str(?datasetUri)=\"" ++ uri ++
        "\") . " ++ "\x7d " := rfl

/-- The map viewport at the moment the viewport query is built: the
rendered coordinate strings of the north-east and south-west corners. -/
structure Bounds where
  neLng : String
  neLat : String
  swLng : String
  swLat : String
deriving DecidableEq

/-- src/charme.js lines 138-172: the SPARQL query for annotations
intersecting the current viewport.  The source reads the bounds of the
page-global map (its `mapObj` parameter is unused); we pass those bounds
in.  `maxx`/`maxy` are the north-east corner, `minx`/`miny` the
south-west one. -/
def getQuery (b : Bounds) : String :=
  let maxx := b.neLng
  let maxy := b.neLat
  let minx := b.swLng
  let miny := b.swLat
  "PREFIX charme: <http://purl.org/voc/charme#> " ++
    "PREFIX oa: <http://www.w3.org/ns/oa#> " ++
    "PREFIX geo: <http://www.opengis.net/ont/geosparql#> " ++
    "PREFIX geof: <http://www.opengis.net/def/function/geosparql/> " ++
    "PREFIX cnt: <http://www.w3.org/2011/content#> " ++
    "PREFIX foaf: <http://xmlns.com/foaf/0.1/> " ++
    "SELECT ?text ?name ?wkt " ++
    "WHERE \x7b " ++
    "    ?anno oa:hasBody ?body . " ++
    "    ?anno oa:annotatedBy ?authorUri . " ++
    "    ?authorUri foaf:name ?name . " ++
    "    ?body cnt:chars ?text . " ++
    "    ?anno oa:hasTarget ?target . " ++
    "    ?target oa:hasSelector ?selector . " ++
    "    ?selector charme:hasSpatialExtent ?sp . " ++
    "    ?sp geo:hasGeometry ?geometry . " ++
    "    ?geometry geo:asWKT ?wkt . " ++
    "    FILTER(geof:sfIntersects(?wkt, \"POLYGON((" ++
    minx ++ " " ++ miny ++ "," ++
    minx ++ " " ++ maxy ++ "," ++
    maxx ++ " " ++ maxy ++ "," ++
    maxx ++ " " ++ miny ++ "," ++
    minx ++ " " ++ miny ++
    "))\"^^geo:wktLiteral)) " ++
    "\x7d " ++
    "LIMIT 100"

/-- The fixed head of the viewport query (everything before the first
embedded coordinate), spelled as a single literal. -/
def vpQueryHead : String :=
  "PREFIX charme: <http://purl.org/voc/charme#> PREFIX oa: <http://www.w3.org/ns/oa#> PREFIX geo: <http://www.opengis.net/ont/geosparql#> PREFIX geof: <http://www.opengis.net/def/function/geosparql/> PREFIX cnt: <http://www.w3.org/2011/content#> PREFIX foaf: <http://xmlns.com/foaf/0.1/> SELECT ?text ?name ?wkt WHERE \x7b     ?anno oa:hasBody ?body .     ?anno oa:annotatedBy ?authorUri .     ?authorUri foaf:name ?name .     ?body cnt:chars ?text .     ?anno oa:hasTarget ?target .     ?target oa:hasSelector ?selector .     ?selector charme:hasSpatialExtent ?sp .     ?sp geo:hasGeometry ?geometry .     ?geometry geo:asWKT ?wkt .     FILTER(geof:sfIntersects(?wkt, \"POLYGON(("

example (b : Bounds) :
    getQuery b =
      vpQueryHead ++ b.swLng ++ " " ++ b.swLat ++ "," ++ b.swLng ++ " " ++
        b.neLat ++ "," ++ b.neLng ++ " " ++ b.neLat ++ "," ++ b.neLng ++ " " ++
        b.swLat ++ "," ++ b.swLng ++ " " ++ b.swLat ++
        "))\"^^geo:wktLiteral)) " ++ "\x7d " ++ "LIMIT 100" := rfl

/-! ## Annotation document (Turtle) builders -/

/-- src/charme.js lines 190-228: the Turtle document for a submission.
The source creates `new Date()` internally and embeds
`dateTime.toISOString()`; that clock reading is passed here as the
trailing `dateTimeISO` argument, the only effect of the function.  All
other arguments are embedded verbatim, in source order. -/
def getTurtle (name email authorUri datasetUri datasetVar location comment
    dateTimeISO : String) : String :=
  "@prefix chnode: <http://localhost/> ." ++
    "@prefix charme: <http://purl.org/voc/charme#> ." ++
    "@prefix oa: <http://www.w3.org/ns/oa#> ." ++
    "@prefix foaf: <http://xmlns.com/foaf/0.1/> ." ++
    "@prefix prov: <http://www.w3.org/ns/prov#> ." ++
    "@prefix xsd: <http://www.w3.org/2001/XML-Schema#> ." ++
    "@prefix geo: <http://www.opengis.net/ont/geosparql#> ." ++
    "@prefix cnt: <http://www.w3.org/2011/content#> ." ++
    "@prefix dc: <http://purl.org/dc/elements/1.1/> ." ++
    "@prefix dctypes: <http://purl.org/dc/dcmitype/> ." ++
    "<chnode:annoID> a oa:Annotation ;" ++
    "    oa:annotatedAt \"" ++ dateTimeISO ++ "\" ;" ++
    "    oa:annotatedBy <" ++ authorUri ++ "> ;" ++
    "    oa:hasTarget <chnode:targetID> ;" ++
    "    oa:hasBody <chnode:bodyID> ;" ++
    "    oa:motivatedBy oa:linking ." ++
    "<" ++ authorUri ++ "> a foaf:Person ;" ++
    "    foaf:mbox <mailto:" ++ email ++ "> ;" ++
    "    foaf:name \"" ++ name ++ "\" ." ++
    "<chnode:targetID> a charme:DatasetSubset ;" ++
    "    oa:hasSource <" ++ datasetUri ++ "> ;" ++
    "    oa:hasSelector <chnode:subsetSelectorID> ." ++
    "<" ++ datasetUri ++ "> a charme:dataset ." ++
    "<chnode:subsetSelectorID> a charme:SubsetSelector ;" ++
    "    charme:hasVariable <chnode:variableID-01> ;" ++
    "    charme:hasSpatialExtent <chnode:spatialExtentID-01> ." ++
    "<chnode:bodyID> a cnt:ContentAsText, dctypes:Text ;" ++
    "    cnt:chars \"" ++ comment ++ "\" ;" ++
    "    dc:format \"text/plain\" .    " ++
    "<chnode:variableID-01> a charme:Variable ;" ++
    "    charme:hasInternalName \"" ++ datasetVar ++ "\" ." ++
    "<chnode:spatialExtentID-01> a charme:SpatialExtent ;" ++
    "    geo:hasGeometry <chnode:geometryID-01> ." ++
    "<chnode:geometryID-01> a geo:Geometry ;" ++
    "    geo:asWKT \"" ++ location ++ "\"^^geo:wktLiteral ."

/-- src/unnamed/part_001 lines 401-433: the Turtle document built by the
`CharmeAnnotator` module.  It takes no author identity and no clock: there
is no foaf prefix, no annotatedBy/annotatedAt triple, and no author
entity. -/
def _getTurtle (datasetUri datasetVar location comment : String) : String :=
  "@prefix chnode: <http://localhost/> ." ++
    "@prefix charme: <http://purl.org/voc/charme#> ." ++
    "@prefix oa: <http://www.w3.org/ns/oa#> ." ++
    "@prefix prov: <http://www.w3.org/ns/prov#> ." ++
    "@prefix xsd: <http://www.w3.org/2001/XML-Schema#> ." ++
    "@prefix geo: <http://www.opengis.net/ont/geosparql#> ." ++
    "@prefix cnt: <http://www.w3.org/2011/content#> ." ++
    "@prefix dc: <http://purl.org/dc/elements/1.1/> ." ++
    "@prefix dctypes: <http://purl.org/dc/dcmitype/> ." ++
    "<chnode:annoID> a oa:Annotation ;" ++
    "    oa:hasTarget <chnode:targetID> ;" ++
    "    oa:hasBody <chnode:bodyID> ;" ++
    "    oa:motivatedBy oa:linking ." ++
    "<chnode:targetID> a charme:DatasetSubset ;" ++
    "    oa:hasSource <" ++ datasetUri ++ "> ;" ++
    "    oa:hasSelector <chnode:subsetSelectorID> ." ++
    "<" ++ datasetUri ++ "> a charme:dataset ." ++
    "<chnode:subsetSelectorID> a charme:SubsetSelector ;" ++
    "    charme:hasVariable <chnode:variableID-01> ;" ++
    "    charme:hasSpatialExtent <chnode:spatialExtentID-01> ." ++
    "<chnode:bodyID> a cnt:ContentAsText, dctypes:Text ;" ++
    "    cnt:chars \"" ++ comment ++ "\" ;" ++
    "    dc:format \"text/plain\" .    " ++
    "<chnode:variableID-01> a charme:Variable ;" ++
    "    charme:hasInternalName \"" ++ datasetVar ++ "\" ." ++
    "<chnode:spatialExtentID-01> a charme:SpatialExtent ;" ++
    "    geo:hasGeometry <chnode:geometryID-01> ." ++
    "<chnode:geometryID-01> a geo:Geometry ;" ++
    "    geo:asWKT \"" ++ location ++ "\"^^geo:wktLiteral ."

/-- The fixed head of the module's Turtle document (everything before the
first caller-supplied string), spelled as a single literal. -/
def partTurtleHead : String :=
  "@prefix chnode: <http://localhost/> .@prefix charme: <http://purl.org/voc/charme#> .@prefix oa: <http://www.w3.org/ns/oa#> .@prefix prov: <http://www.w3.org/ns/prov#> .@prefix xsd: <http://www.w3.org/2001/XML-Schema#> .@prefix geo: <http://www.opengis.net/ont/geosparql#> .@prefix cnt: <http://www.w3.org/2011/content#> .@prefix dc: <http://purl.org/dc/elements/1.1/> .@prefix dctypes: <http://purl.org/dc/dcmitype/> .<chnode:annoID> a oa:Annotation ;    oa:hasTarget <chnode:targetID> ;    oa:hasBody <chnode:bodyID> ;    oa:motivatedBy oa:linking .<chnode:targetID> a charme:DatasetSubset ;    oa:hasSource <"

example (datasetUri datasetVar location comment : String) :
    _getTurtle datasetUri datasetVar location comment =
      partTurtleHead ++ datasetUri ++ "> ;" ++
        "    oa:hasSelector <chnode:subsetSelectorID> ." ++
        "<" ++ datasetUri ++ "> a charme:dataset ." ++
        "<chnode:subsetSelectorID> a charme:SubsetSelector ;" ++
        "    charme:hasVariable <chnode:variableID-01> ;" ++
        "    charme:hasSpatialExtent <chnode:spatialExtentID-01> ." ++
        "<chnode:bodyID> a cnt:ContentAsText, dctypes:Text ;" ++
        "    cnt:chars \"" ++ comment ++ "\" ;" ++
        "    dc:format \"text/plain\" .    " ++
        "<chnode:variableID-01> a charme:Variable ;" ++
        "    charme:hasInternalName \"" ++ datasetVar ++ "\" ." ++
        "<chnode:spatialExtentID-01> a charme:SpatialExtent ;" ++
        "    geo:hasGeometry <chnode:geometryID-01> ." ++
        "<chnode:geometryID-01> a geo:Geometry ;" ++
        "    geo:asWKT \"" ++ location ++ "\"^^geo:wktLiteral ." := rfl

/-! ## The CharmeAnnotator state machine

src/unnamed/part_001, constructor lines 29-62 and prototype methods.  The
mutable fields of the object become a state record; each method becomes a
pure transition.  Every network call is non-blocking in the source: a
fetch is recorded as an in-flight request (`pending`, tagged by its query
text, the selection snapshot at issue time), and its completion is a
separate event.  The rendered annotation overlays (`annotationsGroup`)
are a list of opaque feature tags. -/

/-- JavaScript's rendering of a possibly-`undefined` string when it is
concatenated into another string: `undefined` becomes the text
"undefined". -/
def jsStr : Option String → String
  | some s => s
  | none => "undefined"

structure AnnotatorState where
  charmeUrl : String
  annotationsOn : Bool
  datasetUri : Option String
  datasetVar : Option String
  overlays : List String
  pending : List String
  token : Option String
  logoutEvents : Nat
  drawControlOn : Bool
deriving DecidableEq

/-- The fields as initialised by the constructor (lines 47-56): no
dataset selected, annotations off, nothing rendered or in flight, no
token (the logged-in variant is obtained by a record update). -/
def initState : AnnotatorState :=
  { charmeUrl := "", annotationsOn := false, datasetUri := none,
    datasetVar := none, overlays := [], pending := [], token := none,
    logoutEvents := 0, drawControlOn := false }

/-- Lines 230-233: overwrite the dataset selection unconditionally. -/
def setDatasetDetails (s : AnnotatorState) (uri variable_ : String) :
    AnnotatorState :=
  { s with datasetUri := some uri, datasetVar := some variable_ }

/-- Lines 274-336: if annotations are on, clear the rendered layers and
flip the flag off (no network call); otherwise issue the dataset query —
built from the current selection through the JavaScript `undefined`
coercion — and flip the flag on in the same synchronous step, before any
response can arrive. -/
def toggleAnnotations (s : AnnotatorState) : AnnotatorState :=
  if s.annotationsOn then
    { s with overlays := [], annotationsOn := false }
  else
    { s with
        pending := s.pending ++ [_getQuery (jsStr s.datasetUri) (jsStr s.datasetVar)],
        annotationsOn := true }

/-- Lines 341-343. -/
def isAnnotationsOn (s : AnnotatorState) : Bool :=
  s.annotationsOn

/-- Lines 291-333: the fetch continuation.  When an in-flight query
resolves, its features are rendered into the annotations group
unconditionally — the handler consults neither `annotationsOn` nor the
current dataset selection. -/
def responseArrives (s : AnnotatorState) (q : String) (features : List String) :
    AnnotatorState :=
  if s.pending.contains q then
    { s with pending := s.pending.erase q, overlays := s.overlays ++ features }
  else s

/-- A query fetch that fails: the promise chain has no catch handler, so
nothing at all happens to the annotator state. -/
def responseFails (s : AnnotatorState) (q : String) : AnnotatorState :=
  { s with pending := s.pending.erase q }

/-- Lines 250-255: wipe the OAuth tokens, drop the cached token, fire the
logout event (synchronously, once), then remove the draw control. -/
def charmeLogout (s : AnnotatorState) : AnnotatorState :=
  { s with token := none, logoutEvents := s.logoutEvents + 1,
           drawControlOn := false }

/-- What the annoSubmit click handler (lines 164-217) observably does:
either it posts the Turtle document with a token header, or it aborts.
`refError` is the ReferenceError thrown at line 190 — the identifier
`jso` is bound nowhere in the program — which aborts the handler before
the fetch; `thrownTypeError` is the TypeError from indexing an empty
coordinate array inside the geometry encoder. -/
inductive SubmitOutcome where
  | sent (url : String) (authHeader : String) (body : String)
  | refError
  | thrownTypeError
  | authError
deriving DecidableEq

/-- The tail of the click handler once the location text is in hand:
build the Turtle (before any token check), then either hit the unbound
`jso` (no token) or post with the Token header. -/
def submitWithLoc (s : AnnotatorState) (location comment : String) :
    SubmitOutcome × AnnotatorState :=
  let ttl := _getTurtle (jsStr s.datasetUri) (jsStr s.datasetVar) location comment
  match s.token with
  | none => (.refError, s)
  | some tok => (.sent (s.charmeUrl ++ "insert/annotation") ("Token " ++ tok) ttl, s)

/-- Lines 164-217: the annoSubmit click handler for a drawn layer. -/
def submitClick (s : AnnotatorState) (layer : Shape) (comment : String) :
    SubmitOutcome × AnnotatorState :=
  match _getLocationString layer with
  | .jsError => (.thrownTypeError, s)
  | .text loc => submitWithLoc s loc comment
  | .jsUndefined => submitWithLoc s "undefined" comment

/-- The events that can hit a CharmeAnnotator instance: user actions and
completions of in-flight query fetches, in any interleaving the
single-threaded event loop delivers. -/
inductive AnnEvent where
  | toggle
  | setDataset (uri variable_ : String)
  | response (q : String) (features : List String)
  | respFail (q : String)
  | logout
  | submit (layer : Shape) (comment : String)

def step (s : AnnotatorState) : AnnEvent → AnnotatorState
  | .toggle => toggleAnnotations s
  | .setDataset u v => setDatasetDetails s u v
  | .response q fs => responseArrives s q fs
  | .respFail q => responseFails s q
  | .logout => charmeLogout s
  | .submit layer c => (submitClick s layer c).2

def run (s : AnnotatorState) (evs : List AnnEvent) : AnnotatorState :=
  evs.foldl step s

def countToggles : List AnnEvent → Nat
  | [] => 0
  | .toggle :: evs => countToggles evs + 1
  | _ :: evs => countToggles evs

/-! ## Helper lemmas about strings -/

lemma sappAssoc (a b c : String) : (a ++ b) ++ c = a ++ (b ++ c) := by
  cases a with | mk a =>
  cases b with | mk b =>
  cases c with | mk c =>
  show String.mk ((a ++ b) ++ c) = String.mk (a ++ (b ++ c))
  rw [List.append_assoc]

lemma sdata (a b : String) : (a ++ b).data = a.data ++ b.data := by
  cases a; cases b; rfl

lemma prefixOfCh_self (n post : List Char) :
    prefixOfCh n (n ++ post) = true := by
  induction n with
  | nil => rfl
  | cons c cs ih => simp [prefixOfCh, ih]

lemma containsSub_nil (l : List Char) : containsSub l [] = true := by
  cases l <;> simp [containsSub, prefixOfCh, List.isEmpty]

lemma containsSub_here (pre n post : List Char) :
    containsSub (pre ++ (n ++ post)) n = true := by
  induction pre with
  | nil =>
    cases n with
    | nil => simpa using containsSub_nil post
    | cons c cs =>
      simp only [List.nil_append, List.cons_append, containsSub]
      show (prefixOfCh (c :: cs) ((c :: cs) ++ post) ||
        containsSub (cs ++ post) (c :: cs)) = true
      rw [prefixOfCh_self]
      rfl
  | cons c pre ih => simp [containsSub, ih]

/-- Any string of the shape `pre ++ (mid ++ post)` contains `mid`. -/
lemma strContains_append (pre mid post : String) :
    strContains (pre ++ (mid ++ post)) mid = true := by
  unfold strContains
  rw [sdata, sdata]
  exact containsSub_here _ _ _

/-! ## Helper lemmas about the state machine -/

/-- A toggle event always inverts the visibility flag: both branches of
`toggleAnnotations` write the flag, unconditionally. -/
lemma toggle_flips (s : AnnotatorState) :
    (toggleAnnotations s).annotationsOn = !s.annotationsOn := by
  unfold toggleAnnotations
  cases h : s.annotationsOn <;> simp [h]

/-- Running any event list changes the visibility flag exactly by the
parity of the number of toggle events in it. -/
lemma run_annotationsOn (evs : List AnnEvent) : ∀ s : AnnotatorState,
    (run s evs).annotationsOn =
      (s.annotationsOn ^^ decide (countToggles evs % 2 = 1)) := by
  induction evs with
  | nil => intro s; simp [run, countToggles]
  | cons e evs ih =>
    intro s
    have hrun : run s (e :: evs) = run (step s e) evs := rfl
    rw [hrun, ih]
    cases e with
    | toggle =>
      have h2 : (decide ((countToggles evs + 1) % 2 = 1)) =
          !(decide (countToggles evs % 2 = 1)) := by
        rcases Nat.mod_two_eq_zero_or_one (countToggles evs) with h | h <;>
          simp [Nat.add_mod, h]
      simp only [countToggles, step, toggle_flips, h2, Bool.not_xor,
        Bool.xor_not]
    | setDataset u v => simp [step, setDatasetDetails, countToggles]
    | response q fs =>
      simp only [step, responseArrives, countToggles]
      split <;> rfl
    | respFail q => simp [step, responseFails, countToggles]
    | logout => simp [step, charmeLogout, countToggles]
    | submit layer c =>
      simp only [step, submitClick, countToggles]
      cases _getLocationString layer <;>
        simp only [submitWithLoc] <;>
        (try cases s.token) <;> rfl

/-! ## Claim theorems -/

/-- C9: `toggleAnnotations` called with visibility on synchronously
clears all rendered overlays and sets visibility off, issuing no network
request (the in-flight list is untouched); called with visibility off it
sets visibility on in the very same synchronous step in which the query
request is issued, before and independent of that request resolving
(resolution is a separate `responseArrives` event). -/
theorem c9_toggle_sync (s : AnnotatorState) :
    (s.annotationsOn = true →
      toggleAnnotations s = { s with annotationsOn := false, overlays := [] })
    ∧ (s.annotationsOn = false →
      toggleAnnotations s =
        { s with
            annotationsOn := true,
            pending := s.pending ++
              [_getQuery (jsStr s.datasetUri) (jsStr s.datasetVar)] }) := by
  constructor <;> intro h <;> simp [toggleAnnotations, h]

/-- Witness for C9: both branches evaluated at concrete states. -/
theorem c9_toggle_sync_witness :
    toggleAnnotations { initState with annotationsOn := true, overlays := ["f1"] } =
      { initState with annotationsOn := false, overlays := [] }
    ∧ toggleAnnotations initState =
      { initState with
          annotationsOn := true,
          pending := [_getQuery "undefined" "undefined"] } :=
  ⟨(c9_toggle_sync _).1 rfl, (c9_toggle_sync initState).2 rfl⟩

/-- C10: the visibility flag flips unconditionally on every
`toggleAnnotations` call — query fetches may resolve, fail, or stay in
flight, and dataset changes, logouts and submissions may interleave — so
`isAnnotationsOn` is true exactly when the number of toggle calls since
construction is odd. -/
theorem c10_toggle_parity (evs : List AnnEvent) :
    isAnnotationsOn (run initState evs) = decide (countToggles evs % 2 = 1) := by
  rw [isAnnotationsOn, run_annotationsOn]
  simp [initState]

/-- C5: the dataset query builder emits a fixed head — whose projection
is exactly the columns wkt, text, firstname, surname, email, time,
account — followed by the variable-name filter and the dataset-URI
filter, with the caller's `variableName` and `datasetUri` strings
concatenated in verbatim (no escaping; the SPARQL string comparison the
filters express is exact and case-sensitive).  The first conjunct
exhibits the whole query text; the second pins the projection inside the
head. -/
theorem c5_dataset_query (uri v : String) :
    _getQuery uri v =
      dsQueryHead ++ v ++ "\") . " ++ "FILTER(str(?datasetUri)=\"" ++ uri ++
        "\") . " ++ "\x7d "
    ∧ strContains dsQueryHead
        "SELECT ?wkt ?text ?firstname ?surname ?email ?time ?account WHERE \x7b " =
        true :=
  ⟨rfl, by decide⟩

/-- C6: the viewport query builder embeds the four bounding coordinates
in the source's corner order (sw, sw-lng/ne-lat, ne, ne-lng/sw-lat, then
the sw corner again to close the rectangle), ends in a LIMIT 100 clause,
selects the columns text, name, wkt, and is deterministic: equal bounds
give byte-identical query text. -/
theorem c6_viewport_query (b : Bounds) :
    getQuery b =
      vpQueryHead ++ b.swLng ++ " " ++ b.swLat ++ "," ++ b.swLng ++ " " ++
        b.neLat ++ "," ++ b.neLng ++ " " ++ b.neLat ++ "," ++ b.neLng ++ " " ++
        b.swLat ++ "," ++ b.swLng ++ " " ++ b.swLat ++
        "))\"^^geo:wktLiteral)) " ++ "\x7d " ++ "LIMIT 100"
    ∧ strContains vpQueryHead "SELECT ?text ?name ?wkt WHERE \x7b " = true
    ∧ (∀ b2 : Bounds, b2 = b → getQuery b2 = getQuery b) :=
  ⟨rfl, by decide, fun _ h => by rw [h]⟩

/-- Witness for C6, at the spec's scenario bounds sw=(0,0), ne=(10,10). -/
theorem c6_viewport_query_witness :
    getQuery ⟨"10", "10", "0", "0"⟩ =
      vpQueryHead ++ "0" ++ " " ++ "0" ++ "," ++ "0" ++ " " ++ "10" ++ "," ++
        "10" ++ " " ++ "10" ++ "," ++ "10" ++ " " ++ "0" ++ "," ++ "0" ++
        " " ++ "0" ++ "))\"^^geo:wktLiteral)) " ++ "\x7d " ++ "LIMIT 100"
    ∧ getQuery ⟨"10", "10", "0", "0"⟩ = getQuery ⟨"10", "10", "0", "0"⟩ :=
  ⟨(c6_viewport_query _).1,
    (c6_viewport_query ⟨"10", "10", "0", "0"⟩).2.2 _ rfl⟩

/-- C2: evaluation at the ring (0,0), (1,0), (1,1) — an input whose first
and last points have different latitudes.  The charme.js encoder
(`getLocationString`) emits the points in reverse insertion order but
closes the ring with the mixed pair built from the last input point's
longitude and the FIRST input point's latitude, so the emitted ring is
not closed: its first coordinate pair is 1 1 while its last is 1 0.  The
module encoder (`_getLocationString`) repeats the first emitted pair
verbatim and does produce a closed ring on the same input. -/
theorem c2_ring_closure_eval :
    getLocationString (.polyline [⟨"0", "0"⟩, ⟨"1", "0"⟩, ⟨"1", "1"⟩]) =
      .text "POLYGON ((1 1, 1 0, 0 0, 1 0))"
    ∧ wktPairs "POLYGON ((1 1, 1 0, 0 0, 1 0))" = ["1 1", "1 0", "0 0", "1 0"]
    ∧ ringClosed "POLYGON ((1 1, 1 0, 0 0, 1 0))" = false
    ∧ _getLocationString (.polyline [⟨"0", "0"⟩, ⟨"1", "0"⟩, ⟨"1", "1"⟩]) =
      .text "POLYGON ((1 1, 1 0, 0 0, 1 1))"
    ∧ ringClosed "POLYGON ((1 1, 1 0, 0 0, 1 1))" = true := by
  refine ⟨rfl, by decide, by decide, rfl, by decide⟩

/-- C8 counterexample: a polygon ring with a single point — fewer than
the three the claim says must be rejected — is not rejected: the encoder
emits the degenerate text POLYGON ((0 0, 0 0)). -/
theorem c8_counterexample :
    _getLocationString (.polyline [⟨"0", "0"⟩]) =
      .text "POLYGON ((0 0, 0 0))"
    ∧ encodeFails (_getLocationString (.polyline [⟨"0", "0"⟩])) = false := by
  refine ⟨rfl, by decide⟩

/-- C8 as amended: the encoder fails to produce spatial text exactly on
an unrecognized shape kind (the JavaScript function returns undefined)
or on an empty coordinate ring (indexing the empty array throws); every
point and every non-empty ring — including degenerate rings of one or
two points, which the code does not validate — yields spatial text. -/
theorem c8_encode_total (s : Shape) :
    encodeFails (_getLocationString s) = true ↔
      s = Shape.other ∨ s = Shape.polyline [] := by
  cases s with
  | marker ll => simp [_getLocationString, encodeFails]
  | polyline ls =>
    cases ls with
    | nil => simp [_getLocationString, encodeFails]
    | cons p ps =>
      rcases h : (p :: ps).getLast? with _ | q
      · simp at h
      · simp [_getLocationString, h, encodeFails]
  | other => simp [_getLocationString, encodeFails]

/-- C7 counterexample: author identity absent (every author argument the
empty string, as an unfilled form yields).  The charme.js document
builder still emits the author triples, now with empty values: the
document contains an empty-valued foaf:name field and an empty mailto
mbox, where the claim requires no author triples and no empty-valued
author fields. -/
theorem c7_counterexample :
    strContains
      (getTurtle "" "" "" "http://ds" "v" "POINT (0 0)" "hi"
        "2015-01-01T00:00:00.000Z")
      "foaf:name \"\"" = true
    ∧ strContains
      (getTurtle "" "" "" "http://ds" "v" "POINT (0 0)" "hi"
        "2015-01-01T00:00:00.000Z")
      "foaf:mbox <mailto:>" = true := by
  refine ⟨by decide, by decide⟩

/-- C7 as amended: the charme.js builder embeds the author name and
email unconditionally — whatever the argument strings are, including
empty ones — while the module builder `_getTurtle` takes no author
identity at all and its document never carries author markup: its text
is a fixed template around the dataset URI, comment, variable and
location, and the template (the document at empty arguments) has no foaf
prefix, no foaf field and no annotatedBy triple. -/
theorem c7_author_embedding (n e a d v l c dt : String) :
    strContains (getTurtle n e a d v l c dt)
      ("    foaf:name \"" ++ (n ++ "\" .")) = true
    ∧ strContains (getTurtle n e a d v l c dt)
      ("    foaf:mbox <mailto:" ++ (e ++ "> ;")) = true
    ∧ _getTurtle d v l c =
      partTurtleHead ++ d ++ "> ;" ++
        "    oa:hasSelector <chnode:subsetSelectorID> ." ++
        "<" ++ d ++ "> a charme:dataset ." ++
        "<chnode:subsetSelectorID> a charme:SubsetSelector ;" ++
        "    charme:hasVariable <chnode:variableID-01> ;" ++
        "    charme:hasSpatialExtent <chnode:spatialExtentID-01> ." ++
        "<chnode:bodyID> a cnt:ContentAsText, dctypes:Text ;" ++
        "    cnt:chars \"" ++ c ++ "\" ;" ++
        "    dc:format \"text/plain\" .    " ++
        "<chnode:variableID-01> a charme:Variable ;" ++
        "    charme:hasInternalName \"" ++ v ++ "\" ." ++
        "<chnode:spatialExtentID-01> a charme:SpatialExtent ;" ++
        "    geo:hasGeometry <chnode:geometryID-01> ." ++
        "<chnode:geometryID-01> a geo:Geometry ;" ++
        "    geo:asWKT \"" ++ l ++ "\"^^geo:wktLiteral ."
    ∧ strContains (_getTurtle "" "" "" "") "foaf" = false
    ∧ strContains (_getTurtle "" "" "" "") "annotatedBy" = false := by
  have h : getTurtle n e a d v l c dt =
      ("@prefix chnode: <http://localhost/> ." ++
        "@prefix charme: <http://purl.org/voc/charme#> ." ++
        "@prefix oa: <http://www.w3.org/ns/oa#> ." ++
        "@prefix foaf: <http://xmlns.com/foaf/0.1/> ." ++
        "@prefix prov: <http://www.w3.org/ns/prov#> ." ++
        "@prefix xsd: <http://www.w3.org/2001/XML-Schema#> ." ++
        "@prefix geo: <http://www.opengis.net/ont/geosparql#> ." ++
        "@prefix cnt: <http://www.w3.org/2011/content#> ." ++
        "@prefix dc: <http://purl.org/dc/elements/1.1/> ." ++
        "@prefix dctypes: <http://purl.org/dc/dcmitype/> ." ++
        "<chnode:annoID> a oa:Annotation ;" ++
        "    oa:annotatedAt \"" ++ dt ++ "\" ;" ++
        "    oa:annotatedBy <" ++ a ++ "> ;" ++
        "    oa:hasTarget <chnode:targetID> ;" ++
        "    oa:hasBody <chnode:bodyID> ;" ++
        "    oa:motivatedBy oa:linking ." ++
        "<" ++ a ++ "> a foaf:Person ;") ++
      (("    foaf:mbox <mailto:" ++ (e ++ "> ;")) ++
        (("    foaf:name \"" ++ (n ++ "\" .")) ++
          ("<chnode:targetID> a charme:DatasetSubset ;" ++
            "    oa:hasSource <" ++ d ++ "> ;" ++
            "    oa:hasSelector <chnode:subsetSelectorID> ." ++
            "<" ++ d ++ "> a charme:dataset ." ++
            "<chnode:subsetSelectorID> a charme:SubsetSelector ;" ++
            "    charme:hasVariable <chnode:variableID-01> ;" ++
            "    charme:hasSpatialExtent <chnode:spatialExtentID-01> ." ++
            "<chnode:bodyID> a cnt:ContentAsText, dctypes:Text ;" ++
            "    cnt:chars \"" ++ c ++ "\" ;" ++
            "    dc:format \"text/plain\" .    " ++
            "<chnode:variableID-01> a charme:Variable ;" ++
            "    charme:hasInternalName \"" ++ v ++ "\" ." ++
            "<chnode:spatialExtentID-01> a charme:SpatialExtent ;" ++
            "    geo:hasGeometry <chnode:geometryID-01> ." ++
            "<chnode:geometryID-01> a geo:Geometry ;" ++
            "    geo:asWKT \"" ++ l ++ "\"^^geo:wktLiteral ."))) := by
    simp only [getTurtle, sappAssoc]
  have hname := h
  rw [← sappAssoc] at hname
  refine ⟨?_, ?_, rfl, by decide, by decide⟩
  · rw [hname]; exact strContains_append _ _ _
  · rw [h]; exact strContains_append _ _ _

/-- The event trace refuting C1: select the sst dataset, toggle
annotations on (issuing a query for it), switch to the land-cover
dataset — which, as in the example page, re-issues toggle off and on for
the new dataset — and only then let the first, now stale, query response
arrive. -/
def c1Trace : List AnnEvent :=
  [AnnEvent.setDataset "http://ncwms/cci" "analysed_sst",
   AnnEvent.toggle,
   AnnEvent.setDataset "http://ncwms/lc" "land_cover",
   AnnEvent.toggle, AnnEvent.toggle,
   AnnEvent.response (_getQuery "http://ncwms/cci" "analysed_sst")
     ["overlay-from-stale-response"]]

/-- C1 counterexample: after the trace above the selection is the new
dataset and a fresh toggle-on has been issued, yet the overlays rendered
on the map are exactly the stale response's — the fetch continuation
renders unconditionally, so the old dataset's features are displayed,
where the claim requires the stale response to be discarded. -/
theorem c1_counterexample :
    (run initState c1Trace).overlays = ["overlay-from-stale-response"]
    ∧ (run initState c1Trace).datasetUri = some "http://ncwms/lc"
    ∧ isAnnotationsOn (run initState c1Trace) = true
    ∧ (run initState c1Trace).pending =
      [_getQuery "http://ncwms/lc" "land_cover"] := by
  refine ⟨by decide, by decide, by decide, by decide⟩

/-- C1 as amended: there is no staleness guard at all.  For every pair
of selections and every stale response body, the response of a query
issued before the dataset changed is rendered into the annotations group
in full when it arrives after the change and after a new toggle-on. -/
theorem c1_stale_rendered (u1 v1 u2 v2 : String) (fs : List String) :
    (run initState
      [AnnEvent.setDataset u1 v1, AnnEvent.toggle,
       AnnEvent.setDataset u2 v2, AnnEvent.toggle, AnnEvent.toggle,
       AnnEvent.response (_getQuery u1 v1) fs]).overlays = fs
    ∧ isAnnotationsOn
      (run initState
        [AnnEvent.setDataset u1 v1, AnnEvent.toggle,
         AnnEvent.setDataset u2 v2, AnnEvent.toggle, AnnEvent.toggle,
         AnnEvent.response (_getQuery u1 v1) fs]) = true := by
  constructor <;>
    simp [run, step, setDatasetDetails, toggleAnnotations, responseArrives,
      isAnnotationsOn, initState, jsStr, List.contains]

/-- C3 counterexample: with no dataset selected, toggling annotations on
does not fail — it issues a query whose text embeds the JavaScript
rendering of the absent selection, the word undefined, in both filters;
likewise a submission builds and posts a Turtle document declaring the
dataset named undefined. -/
theorem c3_counterexample :
    (run initState [AnnEvent.toggle]).pending =
      [_getQuery "undefined" "undefined"]
    ∧ strContains (_getQuery "undefined" "undefined")
      "FILTER(str(?datasetUri)=\"undefined\") . " = true
    ∧ (submitClick { initState with token := some "tok" }
        (.marker ⟨"0", "0"⟩) "hi").1 =
      .sent "insert/annotation" "Token tok"
        (_getTurtle "undefined" "undefined" "POINT (0 0)" "hi")
    ∧ strContains (_getTurtle "undefined" "undefined" "POINT (0 0)" "hi")
      "<undefined> a charme:dataset ." = true := by
  refine ⟨rfl, by decide, rfl, by decide⟩

/-- C3 as amended: neither query construction nor submission guards the
dataset selection.  From any state with no selection, toggle-on issues
the query built over the text undefined (and that query carries the
undefined dataset filter), and a submission with a cached token posts
the Turtle document built over the text undefined. -/
theorem c3_no_selection_guard (s : AnnotatorState)
    (huri : s.datasetUri = none) (hvar : s.datasetVar = none)
    (hoff : s.annotationsOn = false) :
    toggleAnnotations s =
      { s with annotationsOn := true,
               pending := s.pending ++ [_getQuery "undefined" "undefined"] }
    ∧ (∀ tok c, s.token = some tok →
        (submitClick s (.marker ⟨"0", "0"⟩) c).1 =
          .sent (s.charmeUrl ++ "insert/annotation") ("Token " ++ tok)
            (_getTurtle "undefined" "undefined" "POINT (0 0)" c))
    ∧ strContains (_getQuery "undefined" "undefined")
      "FILTER(str(?datasetUri)=\"undefined\") . " = true := by
  refine ⟨?_, ?_, by decide⟩
  · simp [toggleAnnotations, hoff, huri, hvar, jsStr]
  · intro tok c htok
    simp [submitClick, _getLocationString, submitWithLoc, htok, huri, hvar,
      jsStr]

/-- Witness for C3 as amended, at a fresh logged-in annotator. -/
theorem c3_no_selection_guard_witness :
    toggleAnnotations { initState with token := some "t" } =
      { initState with
          token := some "t", annotationsOn := true,
          pending := [_getQuery "undefined" "undefined"] }
    ∧ (submitClick { initState with token := some "t" }
        (.marker ⟨"0", "0"⟩) "hi").1 =
      .sent "insert/annotation" "Token t"
        (_getTurtle "undefined" "undefined" "POINT (0 0)" "hi") := by
  have h := c3_no_selection_guard { initState with token := some "t" }
    rfl rfl rfl
  exact ⟨h.1, h.2.1 "t" "hi" rfl⟩

/-- C4 counterexample: a submission clicked after a logout does not
raise an authentication-error precondition — the handler's token-refetch
branch dereferences the unbound identifier jso, so the handler aborts
with a ReferenceError (and no request at all is sent). -/
theorem c4_counterexample :
    (submitClick
      (charmeLogout
        { initState with token := some "d4b0", drawControlOn := true })
      (.marker ⟨"0", "0"⟩) "hi").1 = SubmitOutcome.refError
    ∧ (submitClick
      (charmeLogout
        { initState with token := some "d4b0", drawControlOn := true })
      (.marker ⟨"0", "0"⟩) "hi").1 ≠ SubmitOutcome.authError := by
  refine ⟨rfl, by decide⟩

/-- C4 as amended: every logout clears the cached token and fires the
logout event exactly once, in the same synchronous step; and a
subsequent submission attempt with the token absent aborts before any
request is sent — but through the ReferenceError of the unbound
identifier jso in the token-refetch branch, not through an
authentication-error precondition. -/
theorem c4_logout (s : AnnotatorState) :
    ((charmeLogout s).token = none
      ∧ (charmeLogout s).logoutEvents = s.logoutEvents + 1)
    ∧ (∀ (layer : Shape) (c : String), s.token = none →
        _getLocationString layer ≠ EncodeResult.jsError →
        submitClick s layer c = (SubmitOutcome.refError, s)) := by
  refine ⟨⟨rfl, rfl⟩, ?_⟩
  intro layer c htok hl
  unfold submitClick
  cases hres : _getLocationString layer with
  | jsError => exact absurd hres hl
  | text t => simp [submitWithLoc, htok]
  | jsUndefined => simp [submitWithLoc, htok]

/-- Witness for C4 as amended: logout from a logged-in annotator, then a
marker submission attempt. -/
theorem c4_logout_witness :
    (charmeLogout { initState with token := some "d4b0" }).token = none
    ∧ (charmeLogout { initState with token := some "d4b0" }).logoutEvents = 1
    ∧ submitClick initState (.marker ⟨"0", "0"⟩) "hi" =
      (SubmitOutcome.refError, initState) := by
  have h1 := c4_logout { initState with token := some "d4b0" }
  have h2 := c4_logout initState
  exact ⟨h1.1.1, h1.1.2, h2.2 (.marker ⟨"0", "0"⟩) "hi" rfl (by decide)⟩

end LeafletCharme
